import Mathlib

/-!
Shallow embedding of `httperror/httperror.go` from the Gobusters/ectoerror
repository, together with theorems checking its specification.

A non-nil Go `error` value is modelled by the inductive type `GoError`:
it is either a plain error built by `errors.New` (no `Unwrap` method),
a wrapping error such as the ones built by `fmt.Errorf` with the `%w` verb
(its `Unwrap` returns the cause), or a `*HTTPError`.  A Go `error`
interface value, which may be nil, is modelled as `Option (GoError α)`.
The `any`-typed metadata values are modelled by a type parameter `α`, and
the `map[string]any` metadata map by an association list with unique keys
under `setMeta`.  In-place mutation (`AddMetaValue`) is modelled by
explicit state passing: the Lean function returns the updated record,
which is also the value the Go method returns (the receiver itself, so
returning the same instance is modelled by the returned record being the
updated receiver state).
-/

namespace Ectoerror

variable {α : Type}

/-- Model of a non-nil Go `error` value as seen by this package:
a plain error, a generic wrapping error, or a `*HTTPError`
(whose fields are carried inline). -/
inductive GoError (α : Type) : Type where
  | basic (msg : String)
  | wrapper (msg : String) (cause : GoError α)
  | http (code : Int) (message : String) (meta : List (String × α)) (cause : Option (GoError α))

/-- The `HTTPError` struct of `httperror.go`: status code, message,
metadata map and the optional wrapped cause stored in the private
field `err`. -/
structure HTTPError (α : Type) : Type where
  Code : Int
  Message : String
  Meta : List (String × α)
  err : Option (GoError α)

/-- The view of a `*HTTPError` as a Go `error` interface value. -/
def HTTPError.toGoError (e : HTTPError α) : GoError α :=
  GoError.http e.Code e.Message e.Meta e.err

/-- The Go type assertion `err.(*HTTPError)`: succeeds only when the
top-level dynamic type is `*HTTPError`, with no chain walking. -/
def GoError.asHTTPError : GoError α → Option (HTTPError α)
  | GoError.http code message meta cause => some ⟨code, message, meta, cause⟩
  | GoError.basic _ => none
  | GoError.wrapper _ _ => none

/-- The `Error()` string of a Go error value.  For errors built by
`errors.New` and `fmt.Errorf` it is the stored message text; for a
`*HTTPError` it is the formatted string produced by its `Error` method. -/
def GoError.errorString : GoError α → String
  | GoError.basic msg => msg
  | GoError.wrapper msg _ => msg
  | GoError.http code message _ _ => "[" ++ toString code ++ "] HTTP Error: - " ++ message

/-- The walk performed by `errors.As(err, &httpErr)` on a non-nil error:
test the current value against `*HTTPError`, otherwise follow `Unwrap`.
It returns the first `*HTTPError` found in the wrap chain. -/
def firstHTTP : GoError α → Option (HTTPError α)
  | GoError.http code message meta cause => some ⟨code, message, meta, cause⟩
  | GoError.wrapper _ cause => firstHTTP cause
  | GoError.basic _ => none

/-- `errors.As(err, &httpErr)` on a possibly-nil error value, returning
the matched `*HTTPError` when the call returns true. -/
def errorsAsHTTP : Option (GoError α) → Option (HTTPError α)
  | none => none
  | some e => firstHTTP e

/-- Named status constants from `net/http` used by `httperror.go`. -/
def StatusOK : Int := 200

def StatusCreated : Int := 201

def StatusAccepted : Int := 202

def StatusNoContent : Int := 204

def StatusMultipleChoices : Int := 300

def StatusBadRequest : Int := 400

def StatusUnauthorized : Int := 401

def StatusForbidden : Int := 403

def StatusNotFound : Int := 404

def StatusInternalServerError : Int := 500

def StatusBadGateway : Int := 502

def StatusServiceUnavailable : Int := 503

def StatusGatewayTimeout : Int := 504

def StatusNetworkAuthenticationRequired : Int := 511

/-- `NewHTTPError`: build an `HTTPError` with the given code and message,
an empty (but present) metadata map and no cause. -/
def NewHTTPError (code : Int) (message : String) : HTTPError α :=
  ⟨code, message, [], none⟩

/-- The `Unwrap` method of `*HTTPError`. -/
def HTTPError.Unwrap (e : HTTPError α) : Option (GoError α) :=
  e.err

/-- `WrapError`: if `err` already is exactly a `*HTTPError`, return it
unchanged; otherwise normalize a zero code to 500 and build a new
`HTTPError` whose message is the text of `err` and whose cause is `err`.
The Go function requires a non-nil argument, which the type enforces. -/
def WrapError (code : Int) (err : GoError α) : HTTPError α :=
  match err.asHTTPError with
  | some httpErr => httpErr
  | none =>
    ⟨if code = 0 then StatusInternalServerError else code, err.errorString, [], some err⟩

/-- The `Error` method of `*HTTPError`:
`fmt.Sprintf("[%d] HTTP Error: - %s", e.Code, e.Message)`. -/
def HTTPError.Error (e : HTTPError α) : String :=
  "[" ++ toString e.Code ++ "] HTTP Error: - " ++ e.Message

/-- Assignment `m[key] = value` on the metadata map, modelled on the
association list: overwrite the entry for `key` when present, append it
otherwise. -/
def setMeta : List (String × α) → String → α → List (String × α)
  | [], key, value => [(key, value)]
  | (k0, v0) :: rest, key, value =>
    if k0 = key then (key, value) :: rest else (k0, v0) :: setMeta rest key value

/-- Lookup `m[key]` on the metadata map. -/
def getMeta : List (String × α) → String → Option α
  | [], _ => none
  | (k0, v0) :: rest, key => if k0 = key then some v0 else getMeta rest key

/-- The `AddMetaValue` method: set `e.Meta[key] = value` and return the
receiver.  The returned record is the updated receiver state. -/
def HTTPError.AddMetaValue (e : HTTPError α) (key : String) (value : α) : HTTPError α :=
  { e with Meta := setMeta e.Meta key value }

/-- `GetStatusCode`: the type assertion `err.(*HTTPError)` on the given
error (which fails on a nil interface value), returning its code on
success and 500 otherwise. -/
def GetStatusCode : Option (GoError α) → Int
  | none => StatusInternalServerError
  | some e =>
    match e.asHTTPError with
    | some httpErr => httpErr.Code
    | none => StatusInternalServerError

/-- `IsHTTPError`: `errors.As(err, &httpErr)`. -/
def IsHTTPError (err : Option (GoError α)) : Bool :=
  (errorsAsHTTP err).isSome

/-- `ToHTTPError`: nil maps to nil; an error that is exactly a
`*HTTPError` is returned itself; any other error is wrapped with
`WrapError(GetStatusCode(err), err)`. -/
def ToHTTPError : Option (GoError α) → Option (HTTPError α)
  | none => none
  | some e =>
    match e.asHTTPError with
    | some httpErr => some httpErr
    | none => some (WrapError (GetStatusCode (some e)) e)

/-- `IsStatus`: `errors.As` finds a `*HTTPError` transitively and its
code equals `status` exactly. -/
def IsStatus (err : Option (GoError α)) (status : Int) : Bool :=
  match errorsAsHTTP err with
  | some httpErr => httpErr.Code == status
  | none => false

/-- `IsOK`: transitively found code equals 200. -/
def IsOK (err : Option (GoError α)) : Bool :=
  match errorsAsHTTP err with
  | some httpErr => httpErr.Code == StatusOK
  | none => false

/-- `IsCreated`: transitively found code equals 201. -/
def IsCreated (err : Option (GoError α)) : Bool :=
  match errorsAsHTTP err with
  | some httpErr => httpErr.Code == StatusCreated
  | none => false

/-- `IsAccepted`: transitively found code equals 202. -/
def IsAccepted (err : Option (GoError α)) : Bool :=
  match errorsAsHTTP err with
  | some httpErr => httpErr.Code == StatusAccepted
  | none => false

/-- `IsNoContent`: transitively found code equals 204. -/
def IsNoContent (err : Option (GoError α)) : Bool :=
  match errorsAsHTTP err with
  | some httpErr => httpErr.Code == StatusNoContent
  | none => false

/-- `IsBadRequest`: transitively found code equals 400. -/
def IsBadRequest (err : Option (GoError α)) : Bool :=
  match errorsAsHTTP err with
  | some httpErr => httpErr.Code == StatusBadRequest
  | none => false

/-- `IsUnauthorized`: transitively found code equals 401. -/
def IsUnauthorized (err : Option (GoError α)) : Bool :=
  match errorsAsHTTP err with
  | some httpErr => httpErr.Code == StatusUnauthorized
  | none => false

/-- `IsForbidden`: transitively found code equals 403. -/
def IsForbidden (err : Option (GoError α)) : Bool :=
  match errorsAsHTTP err with
  | some httpErr => httpErr.Code == StatusForbidden
  | none => false

/-- `IsNotFound`: transitively found code equals 404. -/
def IsNotFound (err : Option (GoError α)) : Bool :=
  match errorsAsHTTP err with
  | some httpErr => httpErr.Code == StatusNotFound
  | none => false

/-- `IsInternalServerError`: transitively found code equals 500. -/
def IsInternalServerError (err : Option (GoError α)) : Bool :=
  match errorsAsHTTP err with
  | some httpErr => httpErr.Code == StatusInternalServerError
  | none => false

/-- `IsBadGateway`: transitively found code equals 502. -/
def IsBadGateway (err : Option (GoError α)) : Bool :=
  match errorsAsHTTP err with
  | some httpErr => httpErr.Code == StatusBadGateway
  | none => false

/-- `IsServiceUnavailable`: transitively found code equals 503. -/
def IsServiceUnavailable (err : Option (GoError α)) : Bool :=
  match errorsAsHTTP err with
  | some httpErr => httpErr.Code == StatusServiceUnavailable
  | none => false

/-- `IsGatewayTimeout`: transitively found code equals 504. -/
def IsGatewayTimeout (err : Option (GoError α)) : Bool :=
  match errorsAsHTTP err with
  | some httpErr => httpErr.Code == StatusGatewayTimeout
  | none => false

/-- `IsClientError`: transitively found code in `[400, 500)`. -/
def IsClientError (err : Option (GoError α)) : Bool :=
  match errorsAsHTTP err with
  | some httpErr =>
    decide (StatusBadRequest ≤ httpErr.Code) && decide (httpErr.Code < StatusInternalServerError)
  | none => false

/-- `IsServerError`: transitively found code in `[500, 511)`. -/
def IsServerError (err : Option (GoError α)) : Bool :=
  match errorsAsHTTP err with
  | some httpErr =>
    decide (StatusInternalServerError ≤ httpErr.Code) &&
      decide (httpErr.Code < StatusNetworkAuthenticationRequired)
  | none => false

/-- `IsError`: transitively found code in `[400, 511)`. -/
def IsError (err : Option (GoError α)) : Bool :=
  match errorsAsHTTP err with
  | some httpErr =>
    decide (StatusBadRequest ≤ httpErr.Code) &&
      decide (httpErr.Code < StatusNetworkAuthenticationRequired)
  | none => false

/-- `IsSuccess`: transitively found code in `[200, 300)`. -/
def IsSuccess (err : Option (GoError α)) : Bool :=
  match errorsAsHTTP err with
  | some httpErr =>
    decide (StatusOK ≤ httpErr.Code) && decide (httpErr.Code < StatusMultipleChoices)
  | none => false

/-- `IsRedirect`: transitively found code in `[300, 400)`. -/
def IsRedirect (err : Option (GoError α)) : Bool :=
  match errorsAsHTTP err with
  | some httpErr =>
    decide (StatusMultipleChoices ≤ httpErr.Code) && decide (httpErr.Code < StatusBadRequest)
  | none => false

/-- Concrete plain error used by witnesses: `errors.New("boom")`. -/
def plainBoom : Option (GoError Nat) :=
  some (GoError.basic "boom")

/-- Concrete doubly wrapped chain used for claim C1: two generic wrapping
layers around a `*HTTPError` with code 403. -/
def chain403 : Option (GoError Nat) :=
  some (GoError.wrapper "outer"
    (GoError.wrapper "inner" (GoError.http 403 "forbidden" [] none)))

/-- Concrete wrapped chain used by witnesses: one generic wrapping layer
around a `*HTTPError` with code 510. -/
def chain510 : Option (GoError Nat) :=
  some (GoError.wrapper "w" (GoError.http 510 "m" [] none))

/-- Wrapping a value that is exactly a `*HTTPError` returns it unchanged,
whatever the code argument is. -/
theorem wrapError_of_http (c : Int) (h : HTTPError α) :
    WrapError c h.toGoError = h := rfl

/-- If `errors.As` finds no `*HTTPError` in the chain of `g`, then in
particular the top-level type assertion on `g` fails. -/
theorem asHTTPError_eq_none_of_errorsAs (g : GoError α)
    (h : errorsAsHTTP (some g) = none) : g.asHTTPError = none := by
  cases g with
  | basic msg => rfl
  | wrapper msg cause => rfl
  | http code message meta cause => simp [errorsAsHTTP, firstHTTP] at h

/-- Looking up a key right after setting it yields the value just set. -/
theorem getMeta_setMeta (m : List (String × α)) (key : String) (value : α) :
    getMeta (setMeta m key value) key = some value := by
  induction m with
  | nil => simp [setMeta, getMeta]
  | cons p rest ih =>
    obtain ⟨k0, v0⟩ := p
    by_cases hk : k0 = key
    · subst hk
      simp [setMeta, getMeta]
    · simp [setMeta, getMeta, hk, ih]

/-- C1 counterexample: on a chain of two generic wrapping layers ending in
an `HTTPError` with code 403, `GetStatusCode` returns 500, not 403 — the
lookup is a top-level type assertion, not a transitive chain walk. -/
theorem C1_counterexample :
    GetStatusCode chain403 = 500 ∧ GetStatusCode chain403 ≠ 403 :=
  ⟨rfl, by decide⟩

/-- C1 (amended): `GetStatusCode(e)` returns the code only when `e` is
itself exactly an `HTTPError`; on any wrapping error — regardless of what
it wraps — on any plain error, and on nil, it returns 500. -/
theorem C1_getStatusCode_top_level_only (α : Type) (h : HTTPError α)
    (msg : String) (g : GoError α) :
    GetStatusCode (some h.toGoError) = h.Code ∧
    GetStatusCode (some (GoError.wrapper msg g)) = 500 ∧
    GetStatusCode (some (GoError.basic msg) : Option (GoError α)) = 500 ∧
    GetStatusCode (none : Option (GoError α)) = 500 :=
  ⟨rfl, rfl, rfl, rfl⟩

/-- C3: wrapping is idempotent — `WrapError c2 (WrapError c1 baseErr)`
equals `WrapError c1 baseErr` for every base error and all codes, and a
value that is already exactly an `HTTPError` is returned unchanged with
the code argument discarded. -/
theorem C3_wrapError_idempotent (α : Type) (baseErr : GoError α)
    (c1 c2 : Int) (h : HTTPError α) :
    WrapError c2 (WrapError c1 baseErr).toGoError = WrapError c1 baseErr ∧
    WrapError c2 h.toGoError = h :=
  ⟨wrapError_of_http c2 _, wrapError_of_http c2 h⟩

/-- C5: `IsStatus e status` is true exactly when `errors.As` finds an
`HTTPError` transitively in the chain of `e` and the first one found has
code equal to `status`; in particular it is false on a plain error. -/
theorem C5_isStatus_characterization (α : Type) (e : Option (GoError α))
    (status : Int) :
    IsStatus e status = true ↔
      ∃ h : HTTPError α, errorsAsHTTP e = some h ∧ h.Code = status := by
  cases hfind : errorsAsHTTP e with
  | none => simp [IsStatus, hfind]
  | some h0 => simp [IsStatus, hfind]

/-- C8: the rendered string of an `HTTPError` is exactly the bracketed
decimal code followed by the fixed text and the message; in particular
`NewHTTPError 400 "bad request"` renders as
`[400] HTTP Error: - bad request`. -/
theorem C8_error_format (α : Type) (e : HTTPError α) :
    e.Error = "[" ++ toString e.Code ++ "] HTTP Error: - " ++ e.Message ∧
    (NewHTTPError 400 "bad request" : HTTPError α).Error =
      "[400] HTTP Error: - bad request" :=
  ⟨rfl, rfl⟩

/-- C9: `AddMetaValue` is last-write-wins per key, and a call never
changes the code, the message or the cause; the returned record is the
updated receiver itself, modelling the Go method returning its receiver. -/
theorem C9_addMetaValue (α : Type) (v : HTTPError α) (k : String) (x y : α) :
    getMeta ((v.AddMetaValue k x).AddMetaValue k y).Meta k = some y ∧
    (v.AddMetaValue k x).Code = v.Code ∧
    (v.AddMetaValue k x).Message = v.Message ∧
    (v.AddMetaValue k x).err = v.err := by
  refine ⟨?_, rfl, rfl, rfl⟩
  simp [HTTPError.AddMetaValue, getMeta_setMeta]

/-- C10: on a nil error every inspection predicate returns false while
`GetStatusCode` returns 500 — nil behaves exactly like a plain non-failure
error. -/
theorem C10_nil_input (α : Type) (s : Int) :
    GetStatusCode (none : Option (GoError α)) = 500 ∧
    IsHTTPError (none : Option (GoError α)) = false ∧
    IsStatus (none : Option (GoError α)) s = false ∧
    IsOK (none : Option (GoError α)) = false ∧
    IsCreated (none : Option (GoError α)) = false ∧
    IsAccepted (none : Option (GoError α)) = false ∧
    IsNoContent (none : Option (GoError α)) = false ∧
    IsBadRequest (none : Option (GoError α)) = false ∧
    IsUnauthorized (none : Option (GoError α)) = false ∧
    IsForbidden (none : Option (GoError α)) = false ∧
    IsNotFound (none : Option (GoError α)) = false ∧
    IsInternalServerError (none : Option (GoError α)) = false ∧
    IsBadGateway (none : Option (GoError α)) = false ∧
    IsServiceUnavailable (none : Option (GoError α)) = false ∧
    IsGatewayTimeout (none : Option (GoError α)) = false ∧
    IsClientError (none : Option (GoError α)) = false ∧
    IsServerError (none : Option (GoError α)) = false ∧
    IsError (none : Option (GoError α)) = false ∧
    IsSuccess (none : Option (GoError α)) = false ∧
    IsRedirect (none : Option (GoError α)) = false :=
  ⟨rfl, rfl, rfl, rfl, rfl, rfl, rfl, rfl, rfl, rfl, rfl, rfl, rfl, rfl,
    rfl, rfl, rfl, rfl, rfl, rfl⟩

/-- C2: on an error whose chain transitively contains an `HTTPError`, the
band predicates test the code of the first one found against the exact
half-open ranges `[400, 500)`, `[500, 511)`, `[400, 511)`, `[200, 300)`
and `[300, 400)`; in particular `IsServerError` is true at code 510 and
false at code 511. -/
theorem C2_band_predicates (α : Type) (e : Option (GoError α))
    (h : HTTPError α) (hfind : errorsAsHTTP e = some h) :
    (IsClientError e = true ↔ 400 ≤ h.Code ∧ h.Code < 500) ∧
    (IsServerError e = true ↔ 500 ≤ h.Code ∧ h.Code < 511) ∧
    (IsError e = true ↔ 400 ≤ h.Code ∧ h.Code < 511) ∧
    (IsSuccess e = true ↔ 200 ≤ h.Code ∧ h.Code < 300) ∧
    (IsRedirect e = true ↔ 300 ≤ h.Code ∧ h.Code < 400) ∧
    IsServerError (some (GoError.http 510 "m" ([] : List (String × α)) none)) = true ∧
    IsServerError (some (GoError.http 511 "m" ([] : List (String × α)) none)) = false := by
  refine ⟨?_, ?_, ?_, ?_, ?_, rfl, rfl⟩ <;>
    simp [IsClientError, IsServerError, IsError, IsSuccess, IsRedirect, hfind,
      StatusOK, StatusMultipleChoices, StatusBadRequest, StatusInternalServerError,
      StatusNetworkAuthenticationRequired]

/-- Witness for C2: the chain with one wrapping layer around an
`HTTPError` with code 510 satisfies the hypothesis, and the bands hold
there. -/
theorem C2_band_predicates_witness :
    errorsAsHTTP chain510 = some ⟨510, "m", [], none⟩ ∧
    ((IsClientError chain510 = true ↔ (400 : Int) ≤ 510 ∧ (510 : Int) < 500) ∧
     (IsServerError chain510 = true ↔ (500 : Int) ≤ 510 ∧ (510 : Int) < 511) ∧
     (IsError chain510 = true ↔ (400 : Int) ≤ 510 ∧ (510 : Int) < 511) ∧
     (IsSuccess chain510 = true ↔ (200 : Int) ≤ 510 ∧ (510 : Int) < 300) ∧
     (IsRedirect chain510 = true ↔ (300 : Int) ≤ 510 ∧ (510 : Int) < 400) ∧
     IsServerError (some (GoError.http 510 "m" ([] : List (String × Nat)) none)) = true ∧
     IsServerError (some (GoError.http 511 "m" ([] : List (String × Nat)) none)) = false) :=
  ⟨rfl, C2_band_predicates Nat chain510 ⟨510, "m", [], none⟩ rfl⟩

/-- C4: on an error whose chain contains no `HTTPError`, every status and
band predicate returns false even though `GetStatusCode` returns 500 on
the same error — absence of an `HTTPError` is never treated as a failure
by the predicates. -/
theorem C4_plain_error_predicates (α : Type) (e : Option (GoError α))
    (hplain : errorsAsHTTP e = none) :
    GetStatusCode e = 500 ∧
    (∀ s : Int, IsStatus e s = false) ∧
    IsOK e = false ∧
    IsCreated e = false ∧
    IsAccepted e = false ∧
    IsNoContent e = false ∧
    IsBadRequest e = false ∧
    IsUnauthorized e = false ∧
    IsForbidden e = false ∧
    IsNotFound e = false ∧
    IsInternalServerError e = false ∧
    IsBadGateway e = false ∧
    IsServiceUnavailable e = false ∧
    IsGatewayTimeout e = false ∧
    IsClientError e = false ∧
    IsServerError e = false ∧
    IsError e = false ∧
    IsSuccess e = false ∧
    IsRedirect e = false := by
  have hcode : GetStatusCode e = 500 := by
    cases e with
    | none => rfl
    | some g =>
      simp [GetStatusCode, asHTTPError_eq_none_of_errorsAs g hplain,
        StatusInternalServerError]
  refine ⟨hcode, fun s => ?_, ?_, ?_, ?_, ?_, ?_, ?_, ?_, ?_, ?_, ?_, ?_,
      ?_, ?_, ?_, ?_, ?_, ?_⟩ <;>
    simp [IsStatus, IsOK, IsCreated, IsAccepted, IsNoContent, IsBadRequest,
      IsUnauthorized, IsForbidden, IsNotFound, IsInternalServerError,
      IsBadGateway, IsServiceUnavailable, IsGatewayTimeout, IsClientError,
      IsServerError, IsError, IsSuccess, IsRedirect, hplain]

/-- Witness for C4: the plain error `errors.New("boom")` satisfies the
hypothesis, and every predicate is false on it while `GetStatusCode`
returns 500. -/
theorem C4_plain_error_predicates_witness :
    errorsAsHTTP plainBoom = none ∧
    (GetStatusCode plainBoom = 500 ∧
     (∀ s : Int, IsStatus plainBoom s = false) ∧
     IsOK plainBoom = false ∧
     IsCreated plainBoom = false ∧
     IsAccepted plainBoom = false ∧
     IsNoContent plainBoom = false ∧
     IsBadRequest plainBoom = false ∧
     IsUnauthorized plainBoom = false ∧
     IsForbidden plainBoom = false ∧
     IsNotFound plainBoom = false ∧
     IsInternalServerError plainBoom = false ∧
     IsBadGateway plainBoom = false ∧
     IsServiceUnavailable plainBoom = false ∧
     IsGatewayTimeout plainBoom = false ∧
     IsClientError plainBoom = false ∧
     IsServerError plainBoom = false ∧
     IsError plainBoom = false ∧
     IsSuccess plainBoom = false ∧
     IsRedirect plainBoom = false) :=
  ⟨rfl, C4_plain_error_predicates Nat plainBoom rfl⟩

/-- C6: wrapping a non-`HTTPError` error normalizes a zero code to 500,
keeps a non-zero code exactly, sets the message to the text of the
wrapped error and sets the cause to the wrapped error. -/
theorem C6_wrapError_fields (α : Type) (err : GoError α) (c : Int)
    (herr : err.asHTTPError = none) (hc : c ≠ 0) :
    (WrapError 0 err).Code = 500 ∧
    (WrapError c err).Code = c ∧
    (WrapError c err).Message = err.errorString ∧
    (WrapError c err).err = some err := by
  simp [WrapError, herr, hc, StatusInternalServerError]

/-- Witness for C6: wrapping `errors.New("boom")` with codes 0 and 404. -/
theorem C6_wrapError_fields_witness :
    (GoError.asHTTPError (GoError.basic "boom" : GoError Nat) = none ∧
      (404 : Int) ≠ 0) ∧
    ((WrapError 0 (GoError.basic "boom" : GoError Nat)).Code = 500 ∧
     (WrapError 404 (GoError.basic "boom" : GoError Nat)).Code = 404 ∧
     (WrapError 404 (GoError.basic "boom" : GoError Nat)).Message =
       GoError.errorString (GoError.basic "boom" : GoError Nat) ∧
     (WrapError 404 (GoError.basic "boom" : GoError Nat)).err =
       some (GoError.basic "boom")) :=
  ⟨⟨rfl, by decide⟩,
    C6_wrapError_fields Nat (GoError.basic "boom") 404 rfl (by decide)⟩

/-- C7: `ToHTTPError` maps nil to nil, returns an error that is exactly an
`HTTPError` itself, and turns an error containing no `HTTPError` into a
new `HTTPError` with code 500, the message text of the plain error, and
the plain error as cause. -/
theorem C7_toHTTPError (α : Type) (h : HTTPError α) (g : GoError α)
    (hplain : errorsAsHTTP (some g) = none) :
    ToHTTPError (none : Option (GoError α)) = none ∧
    ToHTTPError (some h.toGoError) = some h ∧
    ToHTTPError (some g) = some ⟨500, g.errorString, [], some g⟩ := by
  have hg : g.asHTTPError = none := asHTTPError_eq_none_of_errorsAs g hplain
  refine ⟨rfl, rfl, ?_⟩
  simp [ToHTTPError, hg, GetStatusCode, WrapError, StatusInternalServerError]

/-- Witness for C7: the plain error `errors.New("boom")` satisfies the
hypothesis; `ToHTTPError` on nil, on an `HTTPError` with code 418, and on
the plain error. -/
theorem C7_toHTTPError_witness :
    errorsAsHTTP (some (GoError.basic "boom" : GoError Nat)) = none ∧
    (ToHTTPError (none : Option (GoError Nat)) = none ∧
     ToHTTPError (some (HTTPError.toGoError ⟨418, "teapot", [], none⟩)) =
       some (⟨418, "teapot", [], none⟩ : HTTPError Nat) ∧
     ToHTTPError (some (GoError.basic "boom" : GoError Nat)) =
       some ⟨500, GoError.errorString (GoError.basic "boom" : GoError Nat), [],
         some (GoError.basic "boom")⟩) :=
  ⟨rfl, C7_toHTTPError Nat ⟨418, "teapot", [], none⟩ (GoError.basic "boom") rfl⟩

end Ectoerror
